import Mathlib

/-!
# Verification of the Bird_Detector presence-tracking and visit-detection core

Shallow embedding of `BirdTracker` from `src/bird_detector_v5_5.py` together
with the counter-event logging decision of
`BirdDetectorV55.BirdCallback.process_callback`.

Modelling conventions:
* Python `float` timestamps and the configured durations become `ℚ`
  (the code only subtracts and compares them);
* the Python `dict` `active_birds` (insertion-ordered, `list(keys)[0]` reads
  the first inserted key) becomes an insertion-ordered association list
  `List (String × ℚ)`;
* the detection list passed to `update_birds` is represented by its length:
  the loop body never inspects an individual detection, only whether the
  active set is empty, so only `len(detections)` matters;
* counters are `ℕ` (they start at 0 and are only incremented);
* mutation of `self` becomes explicit state passing: each method returns the
  updated `BirdTracker` next to its Python return value.
-/

/-- State of `BirdTracker` (`__init__`, lines 113–130), including the
configuration values read from `config['bird_tracking']`. -/
structure BirdTracker where
  enable_tracking : Bool
  enable_visit_counter : Bool
  bird_timeout : ℚ
  min_time_between_visits : ℚ
  active_birds : List (String × ℚ)
  total_unique_birds : ℕ
  total_feeding_visits : ℕ
  last_birds_on_frame : ℕ
  last_bird_absence_time : ℚ
  prev_total_unique : ℕ
  prev_total_feeding_visits : ℕ
  new_visit_happened : Bool
  current_birds_on_frame : ℕ
  deriving DecidableEq

/-- `BirdTracker.__init__`: counters zeroed, no active slots, the
absence-time sentinel starts at `0`.  (`current_birds_on_frame` is only
assigned by `update_birds` in the source; we initialise it to 0, and no
theorem reads it before an update.) -/
def initTracker (enable_tracking enable_visit_counter : Bool)
    (bird_timeout min_time_between_visits : ℚ) : BirdTracker :=
  { enable_tracking := enable_tracking
    enable_visit_counter := enable_visit_counter
    bird_timeout := bird_timeout
    min_time_between_visits := min_time_between_visits
    active_birds := []
    total_unique_birds := 0
    total_feeding_visits := 0
    last_birds_on_frame := 0
    last_bird_absence_time := 0
    prev_total_unique := 0
    prev_total_feeding_visits := 0
    new_visit_happened := false
    current_birds_on_frame := 0 }

/-- Body of `update_feeding_visits` after the `enable_visit_counter` guard and
the `new_visit_happened = False` reset (lines 149–188): the visit-detection
branches, not yet including the final `last_birds_on_frame` assignment. -/
def visitStep (s : BirdTracker) (birds_on_frame : ℕ) (current_time : ℚ) :
    BirdTracker :=
  if birds_on_frame > 0 then
    if s.last_birds_on_frame = 0 then
      if s.last_bird_absence_time = 0 then
        { s with total_feeding_visits := s.total_feeding_visits + 1
                 new_visit_happened := true }
      else
        if current_time - s.last_bird_absence_time ≥ s.min_time_between_visits then
          { s with total_feeding_visits := s.total_feeding_visits + 1
                   new_visit_happened := true }
        else
          s
    else
      if birds_on_frame > s.last_birds_on_frame ∧ birds_on_frame > 1 then
        { s with total_feeding_visits := s.total_feeding_visits + 1
                 new_visit_happened := true }
      else
        s
  else
    if birds_on_frame = 0 ∧ s.last_birds_on_frame > 0 then
      { s with last_bird_absence_time := current_time }
    else
      s

/-- `BirdTracker.update_feeding_visits` (lines 138–190): early return when the
visit counter is disabled; otherwise reset `new_visit_happened`, run the
transition branches, and unconditionally store `birds_on_frame` into
`last_birds_on_frame` at the end. -/
def updateFeedingVisits (s : BirdTracker) (birds_on_frame : ℕ)
    (current_time : ℚ) : BirdTracker :=
  if s.enable_visit_counter then
    { visitStep { s with new_visit_happened := false } birds_on_frame current_time
        with last_birds_on_frame := birds_on_frame }
  else
    s

/-- `list(self.active_birds.keys())[0] = current_time` (lines 224–225): the
first inserted slot's `last_seen` is refreshed, insertion order preserved. -/
def refreshFirst (l : List (String × ℚ)) (now : ℚ) : List (String × ℚ) :=
  match l with
  | [] => []
  | (k, _) :: rest => (k, now) :: rest

/-- The `for detection in detections` loop of `update_birds`
(lines 215–225), iterated over the number of detections; the accumulator
carries the tracker state and the `new_birds` counter. -/
def processDetections (now : ℚ) : ℕ → BirdTracker × ℕ → BirdTracker × ℕ
  | 0, acc => acc
  | n + 1, (s, new_birds) =>
    if s.active_birds.isEmpty then
      processDetections now n
        ({ s with total_unique_birds := s.total_unique_birds + 1
                  active_birds :=
                    [("bird_" ++ toString (s.total_unique_birds + 1), now)] },
         new_birds + 1)
    else
      processDetections now n
        ({ s with active_birds := refreshFirst s.active_birds now }, new_birds)

/-- `BirdTracker.update_birds` (lines 192–228): delegate to
`update_feeding_visits`, then (when tracking is enabled) expire slots with
`now - last_seen > bird_timeout` and process the detections.  Returns the new
state together with the Python return value `(birds_on_frame, new_birds)`. -/
def updateBirds (s : BirdTracker) (detections : ℕ) (current_time : ℚ) :
    BirdTracker × ℕ × ℕ :=
  let birds_on_frame := detections
  let s := updateFeedingVisits s birds_on_frame current_time
  if s.enable_tracking then
    let s := { s with active_birds :=
      s.active_birds.filter (fun p => !decide (current_time - p.2 > s.bird_timeout)) }
    let r := processDetections current_time detections (s, 0)
    ({ r.1 with current_birds_on_frame := birds_on_frame },
      birds_on_frame, r.2)
  else
    ({ s with current_birds_on_frame := birds_on_frame }, birds_on_frame, 0)

/-- The dictionary returned by `BirdTracker.get_stats` (lines 230–237). -/
structure TrackerStats where
  total_unique : ℕ
  total_feeding_visits : ℕ
  current_active : ℕ
  current_on_frame : ℕ
  last_absence_time : ℚ
  deriving DecidableEq

/-- `BirdTracker.get_stats`. -/
def getStats (s : BirdTracker) : TrackerStats :=
  { total_unique := s.total_unique_birds
    total_feeding_visits := s.total_feeding_visits
    current_active := s.active_birds.length
    current_on_frame := s.current_birds_on_frame
    last_absence_time := s.last_bird_absence_time }

/-- `BirdTracker.has_changes` (lines 239–249): compares the current counters
to the stored previous snapshot, then overwrites the snapshot with the
current values before returning. -/
def hasChanges (s : BirdTracker) : Bool × BirdTracker :=
  let current_stats := getStats s
  let changed :=
    (current_stats.total_unique != s.prev_total_unique) ||
      (current_stats.total_feeding_visits != s.prev_total_feeding_visits)
  (changed,
    { s with prev_total_unique := current_stats.total_unique
             prev_total_feeding_visits := current_stats.total_feeding_visits })

/-- The counter-event logging block of
`BirdDetectorV55.BirdCallback.process_callback` (lines 863–871), run after
`update_birds` for the frame: call `has_changes()`, and if it reports a
change, compare the fresh stats against the tracker's `prev_*` fields and
emit a `log_counter_event` record for each counter that is strictly larger.
Returns the list of `(event_type, counter_value, timestamp)` calls made to
`LogManager.log_counter_event`, in order, next to the updated tracker. -/
def callbackCounterEvents (tr : BirdTracker) (current_time : ℚ) :
    List (String × ℕ × ℚ) × BirdTracker :=
  let r := hasChanges tr
  let tr := r.2
  if r.1 then
    let stats := getStats tr
    let visitEvents :=
      if stats.total_feeding_visits > tr.prev_total_feeding_visits then
        [("Посещение кормушки", stats.total_feeding_visits, current_time)]
      else []
    let uniqueEvents :=
      if stats.total_unique > tr.prev_total_unique then
        [("Новая уникальная птица", stats.total_unique, current_time)]
      else []
    (visitEvents ++ uniqueEvents, tr)
  else
    ([], tr)

/-- Driving the tracker over a list of frames, each a pair
`(detection count, timestamp)`, exactly as the callback calls
`update_birds` once per frame. -/
def runTracker (s : BirdTracker) : List (ℕ × ℚ) → BirdTracker
  | [] => s
  | (n, t) :: rest => runTracker (updateBirds s n t).1 rest

/-! ## Frame lemmas: which fields each operation leaves untouched -/

theorem visitStep_frame (s : BirdTracker) (b : ℕ) (t : ℚ) :
    (visitStep s b t).active_birds = s.active_birds ∧
    (visitStep s b t).total_unique_birds = s.total_unique_birds ∧
    (visitStep s b t).enable_tracking = s.enable_tracking ∧
    (visitStep s b t).enable_visit_counter = s.enable_visit_counter ∧
    (visitStep s b t).bird_timeout = s.bird_timeout ∧
    (visitStep s b t).min_time_between_visits = s.min_time_between_visits ∧
    (visitStep s b t).prev_total_unique = s.prev_total_unique ∧
    (visitStep s b t).prev_total_feeding_visits = s.prev_total_feeding_visits ∧
    (visitStep s b t).current_birds_on_frame = s.current_birds_on_frame ∧
    (visitStep s b t).last_birds_on_frame = s.last_birds_on_frame := by
  unfold visitStep
  repeat' split
  all_goals exact ⟨rfl, rfl, rfl, rfl, rfl, rfl, rfl, rfl, rfl, rfl⟩

theorem visitStep_visits (s : BirdTracker) (b : ℕ) (t : ℚ)
    (h : s.new_visit_happened = false) :
    (visitStep s b t).total_feeding_visits
      = s.total_feeding_visits
        + (if (visitStep s b t).new_visit_happened then 1 else 0) := by
  unfold visitStep
  repeat' split
  all_goals simp_all

theorem updateFeedingVisits_frame (s : BirdTracker) (b : ℕ) (t : ℚ) :
    (updateFeedingVisits s b t).active_birds = s.active_birds ∧
    (updateFeedingVisits s b t).total_unique_birds = s.total_unique_birds ∧
    (updateFeedingVisits s b t).enable_tracking = s.enable_tracking ∧
    (updateFeedingVisits s b t).enable_visit_counter = s.enable_visit_counter ∧
    (updateFeedingVisits s b t).bird_timeout = s.bird_timeout ∧
    (updateFeedingVisits s b t).min_time_between_visits = s.min_time_between_visits ∧
    (updateFeedingVisits s b t).prev_total_unique = s.prev_total_unique ∧
    (updateFeedingVisits s b t).prev_total_feeding_visits = s.prev_total_feeding_visits ∧
    (updateFeedingVisits s b t).current_birds_on_frame = s.current_birds_on_frame := by
  unfold updateFeedingVisits
  split
  · obtain ⟨h1, h2, h3, h4, h5, h6, h7, h8, h9, _⟩ :=
      visitStep_frame { s with new_visit_happened := false } b t
    exact ⟨h1, h2, h3, h4, h5, h6, h7, h8, h9⟩
  · exact ⟨rfl, rfl, rfl, rfl, rfl, rfl, rfl, rfl, rfl⟩

theorem updateFeedingVisits_visits (s : BirdTracker) (b : ℕ) (t : ℚ)
    (h : s.enable_visit_counter = false → s.new_visit_happened = false) :
    (updateFeedingVisits s b t).total_feeding_visits
      = s.total_feeding_visits
        + (if (updateFeedingVisits s b t).new_visit_happened then 1 else 0) := by
  unfold updateFeedingVisits
  split
  · exact visitStep_visits { s with new_visit_happened := false } b t rfl
  · rename_i hev
    rw [h (by simpa using hev)]
    simp

theorem refreshFirst_length (l : List (String × ℚ)) (now : ℚ) :
    (refreshFirst l now).length = l.length := by
  cases l with
  | nil => rfl
  | cons p rest => cases p; rfl

theorem refreshFirst_ne (l : List (String × ℚ)) (now : ℚ) (h : l ≠ []) :
    refreshFirst l now ≠ [] := by
  cases l with
  | nil => exact absurd rfl h
  | cons p rest => cases p; simp [refreshFirst]

theorem processDetections_frame (now : ℚ) :
    ∀ (n : ℕ) (s : BirdTracker) (b : ℕ),
    ((processDetections now n (s, b)).1.total_feeding_visits = s.total_feeding_visits ∧
     (processDetections now n (s, b)).1.last_birds_on_frame = s.last_birds_on_frame ∧
     (processDetections now n (s, b)).1.last_bird_absence_time = s.last_bird_absence_time ∧
     (processDetections now n (s, b)).1.new_visit_happened = s.new_visit_happened ∧
     (processDetections now n (s, b)).1.enable_tracking = s.enable_tracking ∧
     (processDetections now n (s, b)).1.enable_visit_counter = s.enable_visit_counter ∧
     (processDetections now n (s, b)).1.bird_timeout = s.bird_timeout ∧
     (processDetections now n (s, b)).1.min_time_between_visits = s.min_time_between_visits ∧
     (processDetections now n (s, b)).1.prev_total_unique = s.prev_total_unique ∧
     (processDetections now n (s, b)).1.prev_total_feeding_visits = s.prev_total_feeding_visits) := by
  intro n
  induction n with
  | zero =>
    intro s b
    exact ⟨rfl, rfl, rfl, rfl, rfl, rfl, rfl, rfl, rfl, rfl⟩
  | succ n ih =>
    intro s b
    simp only [processDetections]
    split
    · exact ih _ _
    · exact ih _ _

theorem processDetections_unique_ge (now : ℚ) :
    ∀ (n : ℕ) (s : BirdTracker) (b k : ℕ),
    k ≤ s.total_unique_birds →
    k ≤ (processDetections now n (s, b)).1.total_unique_birds := by
  intro n
  induction n with
  | zero => intro s b k h; exact h
  | succ n ih =>
    intro s b k h
    simp only [processDetections]
    split
    · exact ih _ _ _ (le_trans h (Nat.le_succ _))
    · exact ih _ _ _ h

theorem processDetections_unique_mono (now : ℚ) (n : ℕ) (s : BirdTracker) (b : ℕ) :
    s.total_unique_birds ≤ (processDetections now n (s, b)).1.total_unique_birds :=
  processDetections_unique_ge now n s b _ le_rfl

theorem processDetections_len (now : ℚ) :
    ∀ (n : ℕ) (s : BirdTracker) (b : ℕ),
    s.active_birds.length ≤ 1 →
    (processDetections now n (s, b)).1.active_birds.length ≤ 1 := by
  intro n
  induction n with
  | zero => intro s b h; exact h
  | succ n ih =>
    intro s b h
    simp only [processDetections]
    split
    · exact ih _ _ (by simp)
    · exact ih _ _ (by rw [refreshFirst_length]; exact h)

theorem processDetections_snd_of_ne (now : ℚ) :
    ∀ (n : ℕ) (s : BirdTracker) (b : ℕ),
    s.active_birds ≠ [] → (processDetections now n (s, b)).2 = b := by
  intro n
  induction n with
  | zero => intro s b _; rfl
  | succ n ih =>
    intro s b h
    simp only [processDetections]
    split
    · rename_i he
      exact absurd (List.isEmpty_iff.mp he) h
    · exact ih _ _ (refreshFirst_ne _ _ h)

theorem processDetections_snd_le (now : ℚ) (n : ℕ) (s : BirdTracker) :
    (processDetections now n (s, 0)).2 ≤ 1 := by
  cases n with
  | zero => exact Nat.zero_le 1
  | succ n =>
    simp only [processDetections]
    split
    · rw [processDetections_snd_of_ne now n _ _ (by simp)]
    · rw [processDetections_snd_of_ne now n _ _
        (refreshFirst_ne _ _ (by rename_i he; simpa [List.isEmpty_iff] using he))]
      exact Nat.zero_le 1

/-- The tracking phase of `update_birds` (expiry plus the detection loop)
touches only `active_birds`, `total_unique_birds` and
`current_birds_on_frame`: every visit-machine field of the state returned by
`update_birds` agrees with the state returned by `update_feeding_visits`. -/
theorem updateBirds_visit_fields (s : BirdTracker) (n : ℕ) (t : ℚ) :
    (updateBirds s n t).1.total_feeding_visits
      = (updateFeedingVisits s n t).total_feeding_visits ∧
    (updateBirds s n t).1.last_birds_on_frame
      = (updateFeedingVisits s n t).last_birds_on_frame ∧
    (updateBirds s n t).1.last_bird_absence_time
      = (updateFeedingVisits s n t).last_bird_absence_time ∧
    (updateBirds s n t).1.new_visit_happened
      = (updateFeedingVisits s n t).new_visit_happened ∧
    (updateBirds s n t).1.enable_tracking
      = (updateFeedingVisits s n t).enable_tracking ∧
    (updateBirds s n t).1.enable_visit_counter
      = (updateFeedingVisits s n t).enable_visit_counter ∧
    (updateBirds s n t).1.bird_timeout
      = (updateFeedingVisits s n t).bird_timeout ∧
    (updateBirds s n t).1.min_time_between_visits
      = (updateFeedingVisits s n t).min_time_between_visits ∧
    (updateBirds s n t).1.prev_total_unique
      = (updateFeedingVisits s n t).prev_total_unique ∧
    (updateBirds s n t).1.prev_total_feeding_visits
      = (updateFeedingVisits s n t).prev_total_feeding_visits := by
  by_cases het : (updateFeedingVisits s n t).enable_tracking = true
  · simp only [updateBirds]
    rw [if_pos het]
    exact processDetections_frame t n _ 0
  · simp only [updateBirds]
    rw [if_neg het]
    exact ⟨rfl, rfl, rfl, rfl, rfl, rfl, rfl, rfl, rfl, rfl⟩

theorem updateBirds_unique_mono (s : BirdTracker) (n : ℕ) (t : ℚ) :
    s.total_unique_birds ≤ (updateBirds s n t).1.total_unique_birds := by
  have hu := (updateFeedingVisits_frame s n t).2.1
  by_cases het : (updateFeedingVisits s n t).enable_tracking = true
  · simp only [updateBirds]
    rw [if_pos het]
    exact processDetections_unique_ge t n _ 0 _ (le_of_eq hu.symm)
  · simp only [updateBirds]
    rw [if_neg het]
    exact le_of_eq hu.symm

theorem updateBirds_len (s : BirdTracker) (n : ℕ) (t : ℚ)
    (h : s.active_birds.length ≤ 1) :
    (updateBirds s n t).1.active_birds.length ≤ 1 := by
  have ha := (updateFeedingVisits_frame s n t).1
  by_cases het : (updateFeedingVisits s n t).enable_tracking = true
  · simp only [updateBirds]
    rw [if_pos het]
    exact processDetections_len t n _ 0
      (le_trans (List.length_filter_le _ _) (by rw [ha]; exact h))
  · simp only [updateBirds]
    rw [if_neg het]
    simpa [ha] using h

theorem updateBirds_new_le (s : BirdTracker) (n : ℕ) (t : ℚ) :
    (updateBirds s n t).2.2 ≤ 1 := by
  by_cases het : (updateFeedingVisits s n t).enable_tracking = true
  · simp only [updateBirds]
    rw [if_pos het]
    exact processDetections_snd_le t n _
  · simp only [updateBirds]
    rw [if_neg het]
    exact Nat.zero_le 1

/-- Invariant of reachable states: when the visit counter is disabled, the
`new_visit_happened` flag can never have been set. -/
def FlagInv (s : BirdTracker) : Prop :=
  s.enable_visit_counter = false → s.new_visit_happened = false

theorem flagInv_step (s : BirdTracker) (n : ℕ) (t : ℚ) (h : FlagInv s) :
    FlagInv (updateBirds s n t).1 := by
  intro hev
  rw [(updateBirds_visit_fields s n t).2.2.2.1]
  rw [(updateBirds_visit_fields s n t).2.2.2.2.2.1,
    (updateFeedingVisits_frame s n t).2.2.2.1] at hev
  unfold updateFeedingVisits
  rw [hev]
  simp [h hev]

theorem flagInv_run (s : BirdTracker) (h : FlagInv s) :
    ∀ l : List (ℕ × ℚ), FlagInv (runTracker s l) := by
  intro l
  induction l generalizing s with
  | nil => exact h
  | cons p rest ih =>
    obtain ⟨n, t⟩ := p
    exact ih _ (flagInv_step s n t h)

theorem runTracker_snoc (s : BirdTracker) (l : List (ℕ × ℚ)) (x : ℕ × ℚ) :
    runTracker s (l ++ [x]) = (updateBirds (runTracker s l) x.1 x.2).1 := by
  induction l generalizing s with
  | nil => obtain ⟨n, t⟩ := x; rfl
  | cons p rest ih =>
    obtain ⟨n, t⟩ := p
    exact ih _

/-! ## Claim theorems -/

/-- C1: the claim says each counter increase during `update_birds` is logged
via `log_counter_event` exactly once per frame.  The code cannot do this:
`has_changes()` overwrites `prev_total_unique` / `prev_total_feeding_visits`
with the current values *before* the callback compares
`stats[...] > prev_...`, so both comparisons are always false and
`log_counter_event` is never called — in particular not on a first frame
with one detection, where both counters increase from 0 to 1. -/
theorem callback_counter_event_never_logged :
    (∀ (tr : BirdTracker) (t : ℚ), (callbackCounterEvents tr t).1 = []) ∧
    (updateBirds (initTracker true true 30 10) 1 0).1.total_feeding_visits = 1 ∧
    (updateBirds (initTracker true true 30 10) 1 0).1.total_unique_birds = 1 ∧
    (callbackCounterEvents (updateBirds (initTracker true true 30 10) 1 0).1 0).1
      = [] := by
  constructor
  · intro tr t
    simp only [callbackCounterEvents, hasChanges, getStats]
    split
    · simp
    · rfl
  · refine ⟨?_, ?_, ?_⟩ <;> with_unfolding_all decide

/-- C2 counterexample: with timeout 30 and min-time-between-visits 10, frames
with counts `[0,1,1,0,1]` at `t = [0,5,6,20,25]` give one unique bird but
only **one** feeding visit, not two: the absence is recorded at `t = 20`
(Transition E), and the re-appearance at `t = 25` is only 5 s later, below
the 10 s debounce, so it is Transition C (continuation). -/
theorem scenario_visits_counterexample :
    (runTracker (initTracker true true 30 10)
        [(0, 0), (1, 5), (1, 6), (0, 20), (1, 25)]).total_unique_birds = 1 ∧
    ¬ (runTracker (initTracker true true 30 10)
        [(0, 0), (1, 5), (1, 6), (0, 20), (1, 25)]).total_feeding_visits = 2 := by
  with_unfolding_all decide

/-- C2 amended: the same scenario yields `total_unique_birds = 1` and
`total_feeding_visits = 1` (the gap that matters is reappearance time minus
recorded absence time, `25 − 20 = 5 < 10`, hence a continuation). -/
theorem scenario_amended :
    (runTracker (initTracker true true 30 10)
        [(0, 0), (1, 5), (1, 6), (0, 20), (1, 25)]).total_unique_birds = 1 ∧
    (runTracker (initTracker true true 30 10)
        [(0, 0), (1, 5), (1, 6), (0, 20), (1, 25)]).total_feeding_visits = 1 := by
  with_unfolding_all decide

/-- C3: along every sequence of `update_birds` calls from the initial state,
both counters are non-decreasing at every call, and `total_feeding_visits`
grows by exactly one when the call detects a visit-start transition
(`new_visit_happened` set) and by zero otherwise — never decremented. -/
theorem counters_monotone (et ev : Bool) (tmo mi : ℚ)
    (inputs : List (ℕ × ℚ)) (n : ℕ) (t : ℚ) :
    (runTracker (initTracker et ev tmo mi) inputs).total_unique_birds
      ≤ (updateBirds (runTracker (initTracker et ev tmo mi) inputs) n t).1.total_unique_birds ∧
    (runTracker (initTracker et ev tmo mi) inputs).total_feeding_visits
      ≤ (updateBirds (runTracker (initTracker et ev tmo mi) inputs) n t).1.total_feeding_visits ∧
    (updateBirds (runTracker (initTracker et ev tmo mi) inputs) n t).1.total_feeding_visits
      = (runTracker (initTracker et ev tmo mi) inputs).total_feeding_visits
        + (if (updateBirds (runTracker (initTracker et ev tmo mi) inputs) n
              t).1.new_visit_happened then 1 else 0) := by
  set s := runTracker (initTracker et ev tmo mi) inputs with hs
  have hinv : FlagInv s := flagInv_run _ (fun _ => rfl) inputs
  have heq : (updateBirds s n t).1.total_feeding_visits
      = s.total_feeding_visits
        + (if (updateBirds s n t).1.new_visit_happened then 1 else 0) := by
    rw [(updateBirds_visit_fields s n t).1,
      (updateBirds_visit_fields s n t).2.2.2.1]
    exact updateFeedingVisits_visits s n t hinv
  exact ⟨updateBirds_unique_mono s n t,
    by rw [heq]; exact Nat.le_add_right _ _, heq⟩

/-- C4: `has_changes` returns true exactly when a counter differs from the
stored previous snapshot, overwrites the snapshot with the current counters
(leaving the counters themselves untouched), and therefore a second
consecutive call with no intervening update always returns false. -/
theorem hasChanges_edge_triggered :
    ∀ s : BirdTracker,
      ((hasChanges s).1 = true ↔
        (s.total_unique_birds ≠ s.prev_total_unique ∨
          s.total_feeding_visits ≠ s.prev_total_feeding_visits)) ∧
      (hasChanges s).2.prev_total_unique = s.total_unique_birds ∧
      (hasChanges s).2.prev_total_feeding_visits = s.total_feeding_visits ∧
      (hasChanges s).2.total_unique_birds = s.total_unique_birds ∧
      (hasChanges s).2.total_feeding_visits = s.total_feeding_visits ∧
      (hasChanges (hasChanges s).2).1 = false := by
  intro s
  simp only [hasChanges, getStats]
  refine ⟨?_, trivial, trivial, trivial, trivial, ?_⟩
  · simp [bne_iff_ne]
  · simp

/-- C5 counterexample: with `enable_visit_counter = false`,
`update_feeding_visits(1, 5)` returns before reaching the final assignment,
so `last_birds_on_frame` stays 0 instead of becoming the argument 1. -/
theorem last_frame_counterexample :
    ¬ ((updateFeedingVisits (initTracker true false 30 10) 1
        5).last_birds_on_frame = 1) := by
  with_unfolding_all decide

/-- C5 amended: whenever `enable_visit_counter` is true, every call to
`update_feeding_visits` ends by storing its `frame_count` argument into
`last_birds_on_frame`; when it is false the call is an early return that
leaves the entire state unchanged. -/
theorem last_frame_updated :
    ∀ (s : BirdTracker) (b : ℕ) (t : ℚ),
      (s.enable_visit_counter = true →
        (updateFeedingVisits s b t).last_birds_on_frame = b) ∧
      (s.enable_visit_counter = false → updateFeedingVisits s b t = s) := by
  intro s b t
  constructor
  · intro h
    simp only [updateFeedingVisits]
    rw [if_pos h]
  · intro h
    simp only [updateFeedingVisits]
    rw [if_neg (by simp [h])]

/-- C5 witness: both branches of `last_frame_updated` at concrete inputs. -/
theorem last_frame_updated_witness :
    (updateFeedingVisits (initTracker true true 30 10) 2
        3).last_birds_on_frame = 2 ∧
    updateFeedingVisits (initTracker true false 30 10) 1 5
      = initTracker true false 30 10 :=
  ⟨(last_frame_updated (initTracker true true 30 10) 2 3).1 rfl,
    (last_frame_updated (initTracker true false 30 10) 1 5).2 rfl⟩

/-- C9: in every state reachable from the initial state, `active_birds`
holds at most one slot (the code only creates a slot when the map is empty),
so `current_active` is 0 or 1; and every `update_birds` call returns a
`new_birds` count of 0 or 1. -/
theorem single_slot_invariant :
    (∀ (et ev : Bool) (tmo mi : ℚ) (inputs : List (ℕ × ℚ)),
      (runTracker (initTracker et ev tmo mi) inputs).active_birds.length ≤ 1 ∧
      (getStats (runTracker (initTracker et ev tmo mi) inputs)).current_active
        ≤ 1) ∧
    (∀ (s : BirdTracker) (n : ℕ) (t : ℚ), (updateBirds s n t).2.2 ≤ 1) := by
  constructor
  · intro et ev tmo mi inputs
    have h : ∀ (l : List (ℕ × ℚ)) (s : BirdTracker),
        s.active_birds.length ≤ 1 → (runTracker s l).active_birds.length ≤ 1 := by
      intro l
      induction l with
      | nil => intro s hle; exact hle
      | cons p rest ih =>
        intro s hle
        obtain ⟨n, t⟩ := p
        exact ih _ (updateBirds_len s n t hle)
    have hlen := h inputs (initTracker et ev tmo mi) (by simp [initTracker])
    exact ⟨hlen, hlen⟩
  · exact updateBirds_new_le

/-- C6: starting from the initial state with debounce `m`, counts
`[0,0,1,1,0,1]` at times `[0,1,2,3,4,4+d]` with `0 ≤ d < m` record exactly
one visit: the first appearance at `t = 2` is Transition A and the
re-appearance at `t = 4+d`, only `d < m` after the absence recorded at
`t = 4`, is a continuation (Transition C). -/
theorem flicker_debounce_single_visit (m d : ℚ) (h0 : 0 ≤ d) (h1 : d < m) :
    (runTracker (initTracker true true 30 m)
      [(0, 0), (0, 1), (1, 2), (1, 3), (0, 4), (1, 4 + d)]).total_feeding_visits
      = 1 := by
  have e1 : (updateBirds (initTracker true true 30 m) 0 0).1
      = initTracker true true 30 m := by
    with_unfolding_all rfl
  have e2 : (updateBirds (initTracker true true 30 m) 0 1).1
      = initTracker true true 30 m := by
    with_unfolding_all rfl
  have e3 : (updateBirds (initTracker true true 30 m) 1 2).1
      = { initTracker true true 30 m with
          active_birds := [("bird_1", 2)]
          total_unique_birds := 1
          total_feeding_visits := 1
          last_birds_on_frame := 1
          new_visit_happened := true
          current_birds_on_frame := 1 } := by
    with_unfolding_all rfl
  have e4 : (updateBirds { initTracker true true 30 m with
          active_birds := [("bird_1", 2)]
          total_unique_birds := 1
          total_feeding_visits := 1
          last_birds_on_frame := 1
          new_visit_happened := true
          current_birds_on_frame := 1 } 1 3).1
      = { initTracker true true 30 m with
          active_birds := [("bird_1", 3)]
          total_unique_birds := 1
          total_feeding_visits := 1
          last_birds_on_frame := 1
          new_visit_happened := false
          current_birds_on_frame := 1 } := by
    with_unfolding_all rfl
  have e5 : (updateBirds { initTracker true true 30 m with
          active_birds := [("bird_1", 3)]
          total_unique_birds := 1
          total_feeding_visits := 1
          last_birds_on_frame := 1
          new_visit_happened := false
          current_birds_on_frame := 1 } 0 4).1
      = { initTracker true true 30 m with
          active_birds := [("bird_1", 3)]
          total_unique_birds := 1
          total_feeding_visits := 1
          last_birds_on_frame := 0
          last_bird_absence_time := 4
          new_visit_happened := false
          current_birds_on_frame := 0 } := by
    with_unfolding_all rfl
  have h5 : runTracker (initTracker true true 30 m)
      [(0, 0), (0, 1), (1, 2), (1, 3), (0, 4)]
      = { initTracker true true 30 m with
          active_birds := [("bird_1", 3)]
          total_unique_birds := 1
          total_feeding_visits := 1
          last_birds_on_frame := 0
          last_bird_absence_time := 4
          new_visit_happened := false
          current_birds_on_frame := 0 } := by
    simp only [runTracker]
    rw [e1, e2, e3, e4, e5]
  rw [show ([(0, 0), (0, 1), (1, 2), (1, 3), (0, 4), (1, 4 + d)] : List (ℕ × ℚ))
      = [(0, 0), (0, 1), (1, 2), (1, 3), (0, 4)] ++ [(1, 4 + d)] from rfl,
    runTracker_snoc, h5]
  rw [(updateBirds_visit_fields _ 1 (4 + d)).1]
  simp only [updateFeedingVisits, visitStep]
  norm_num [initTracker]
  rw [if_neg (not_le.mpr h1)]

/-- C7: from the initial state, a frame with one detection followed by a
frame with two detections yields two visits: Transition A on the first
frame, Transition D (group growth, `2 > 1`) on the second. -/
theorem group_growth_two_visits (tmo mi t1 t2 : ℚ) (h : t1 ≤ t2) :
    (runTracker (initTracker true true tmo mi)
      [(1, t1), (2, t2)]).total_feeding_visits = 2 := by
  simp only [runTracker]
  rw [(updateBirds_visit_fields _ 2 t2).1]
  have h1 : (updateBirds (initTracker true true tmo mi) 1 t1).1
      = { initTracker true true tmo mi with
          active_birds := [("bird_1", t1)]
          total_unique_birds := 1
          total_feeding_visits := 1
          last_birds_on_frame := 1
          new_visit_happened := true
          current_birds_on_frame := 1 } := by
    with_unfolding_all rfl
  rw [h1]
  with_unfolding_all rfl

/-- C7 witness at `t1 = 0 ≤ 1 = t2`. -/
theorem group_growth_two_visits_witness :
    (0 : ℚ) ≤ 1 ∧
    (runTracker (initTracker true true 30 10)
      [(1, 0), (2, 1)]).total_feeding_visits = 2 :=
  ⟨by norm_num, group_growth_two_visits 30 10 0 1 (by norm_num)⟩

/-- C8: with tracking enabled and a single slot last seen at `t0`, an
`update_birds` call with no detections at time `t` removes the slot exactly
when `t - t0 > bird_timeout` (strict), and retains it untouched when
`t - t0 ≤ bird_timeout`; `get_stats()['current_active']` reports 0
respectively 1. -/
theorem slot_expiry (s : BirdTracker) (b : String) (t0 t : ℚ)
    (het : s.enable_tracking = true)
    (hact : s.active_birds = [(b, t0)]) :
    (t - t0 > s.bird_timeout →
      (updateBirds s 0 t).1.active_birds = [] ∧
      (getStats (updateBirds s 0 t).1).current_active = 0) ∧
    (t - t0 ≤ s.bird_timeout →
      (updateBirds s 0 t).1.active_birds = [(b, t0)] ∧
      (getStats (updateBirds s 0 t).1).current_active = 1) := by
  have het' : (updateFeedingVisits s 0 t).enable_tracking = true := by
    rw [(updateFeedingVisits_frame s 0 t).2.2.1]; exact het
  have hact' : (updateFeedingVisits s 0 t).active_birds = [(b, t0)] := by
    rw [(updateFeedingVisits_frame s 0 t).1]; exact hact
  have hto : (updateFeedingVisits s 0 t).bird_timeout = s.bird_timeout :=
    (updateFeedingVisits_frame s 0 t).2.2.2.2.1
  have hmain : (updateBirds s 0 t).1.active_birds
      = (updateFeedingVisits s 0 t).active_birds.filter
          (fun p => !decide (t - p.2 > (updateFeedingVisits s 0 t).bird_timeout)) := by
    simp only [updateBirds]
    rw [if_pos het']
    rfl
  constructor
  · intro hgt
    have hnil : (updateBirds s 0 t).1.active_birds = [] := by
      rw [hmain, hact', hto]
      simp [List.filter_cons, hgt]
    refine ⟨hnil, ?_⟩
    show (updateBirds s 0 t).1.active_birds.length = 0
    rw [hnil]
    rfl
  · intro hle
    have hkeep : (updateBirds s 0 t).1.active_birds = [(b, t0)] := by
      rw [hmain, hact', hto]
      simp [List.filter_cons, not_lt.mpr hle]
    refine ⟨hkeep, ?_⟩
    show (updateBirds s 0 t).1.active_birds.length = 1
    rw [hkeep]
    rfl

/-- C8 witness: one slot last seen at 0, timeout 30; an empty-frame update at
`t = 100` removes it, one at `t = 20` keeps it. -/
theorem slot_expiry_witness :
    (updateBirds { initTracker true true 30 10 with
        active_birds := [("bird_1", 0)] } 0 100).1.active_birds = [] ∧
    (updateBirds { initTracker true true 30 10 with
        active_birds := [("bird_1", 0)] } 0 20).1.active_birds
      = [("bird_1", 0)] :=
  ⟨((slot_expiry _ "bird_1" 0 100 rfl rfl).1 (by norm_num [initTracker])).1,
    ((slot_expiry _ "bird_1" 0 20 rfl rfl).2 (by norm_num [initTracker])).1⟩

/-- C10: the "never absent" condition is the sentinel
`last_bird_absence_time = 0`.  If a disappearance (Transition E) happens at
`current_time = 0` exactly, the stored absence time is the sentinel again, so
the next appearance takes the first-visit branch (Transition A) and
increments `total_feeding_visits` for every later time `t` and every
configured `min_time_between_visits`. -/
theorem absence_sentinel_zero (s : BirdTracker) (n : ℕ) (t : ℚ)
    (hev : s.enable_visit_counter = true)
    (hlast : s.last_birds_on_frame > 0) (hn : n > 0) :
    (updateFeedingVisits s 0 0).last_bird_absence_time = 0 ∧
    (updateFeedingVisits (updateFeedingVisits s 0 0) n t).total_feeding_visits
      = (updateFeedingVisits s 0 0).total_feeding_visits + 1 := by
  have h1 : updateFeedingVisits s 0 0
      = { s with
          new_visit_happened := false
          last_bird_absence_time := 0
          last_birds_on_frame := 0 } := by
    simp [updateFeedingVisits, visitStep, hev, hlast]
  rw [h1]
  refine ⟨rfl, ?_⟩
  simp [updateFeedingVisits, visitStep, hev, hn]

/-- C10 witness: a state with a bird on the previous frame, disappearance at
time 0, re-appearance at time 1 with debounce 10 — the visit counter still
increments. -/
theorem absence_sentinel_zero_witness :
    (updateFeedingVisits
      { initTracker true true 30 10 with last_birds_on_frame := 1 }
      0 0).last_bird_absence_time = 0 ∧
    (updateFeedingVisits
      (updateFeedingVisits
        { initTracker true true 30 10 with last_birds_on_frame := 1 } 0 0)
      1 1).total_feeding_visits
      = (updateFeedingVisits
          { initTracker true true 30 10 with last_birds_on_frame := 1 }
          0 0).total_feeding_visits + 1 :=
  absence_sentinel_zero _ 1 1 rfl (by norm_num [initTracker]) (by norm_num)

/-- C6 witness at `m = 10`, `d = 5`. -/
theorem flicker_debounce_single_visit_witness :
    (0 : ℚ) ≤ 5 ∧ (5 : ℚ) < 10 ∧
    (runTracker (initTracker true true 30 10)
      [(0, 0), (0, 1), (1, 2), (1, 3), (0, 4), (1, 4 + 5)]).total_feeding_visits
      = 1 :=
  ⟨by norm_num, by norm_num,
    flicker_debounce_single_visit 10 5 (by norm_num) (by norm_num)⟩
